import Mathlib

/-!
# Verification of the build-actions step runner (`action.py`)

A shallow embedding of the core of `action.py`: the retrying command
executor `run`, the problem-matcher registry and its begin/end bracket
emitters, and the `configure`/`build`/`test` steps.  External effects
(process execution, the file system, logging, sleeping) are modelled
explicitly: a `World` function gives the outcome of each process spawn,
a `FS` function gives the content of each file, and every step returns
the ordered list of `Effect`s it performed together with its outcome.
-/

namespace BuildActions

/-! ## String utilities

Structural (kernel-reducible) replacements for Python's `in`, `split`,
`startswith`, `replace` and `" ".join` string operations. -/

/-- Python `needle in hay` on char lists: `needle` occurs contiguously. -/
def listContainsSub (needle : List Char) : List Char → Bool
  | [] => needle.isEmpty
  | x :: xs => needle.isPrefixOf (x :: xs) || listContainsSub needle xs

/-- Python `needle in hay` for strings. -/
def strContains (hay needle : String) : Bool :=
  listContainsSub needle.toList hay.toList

/-- Split a char list on a separator char; Python `s.split(sep)` semantics
(`"".split(",") = [""]`). -/
def splitCharAux (c : Char) : List Char → List Char → List (List Char)
  | [], acc => [acc.reverse]
  | x :: xs, acc =>
    if x = c then acc.reverse :: splitCharAux c xs []
    else splitCharAux c xs (x :: acc)

/-- Python `s.split(",")`. -/
def splitComma (s : String) : List String :=
  (splitCharAux ',' s.toList []).map List.asString

/-- Python `s.startswith(p)`. -/
def strStartsWith (s p : String) : Bool :=
  p.toList.isPrefixOf s.toList

/-- Replace non-overlapping occurrences of `pat` left-to-right, with fuel.
Matches Python `str.replace` for a non-empty `pat` when `fuel ≥ length`. -/
def replaceFrom (pat rep : List Char) : Nat → List Char → List Char
  | 0, s => s
  | _, [] => []
  | fuel + 1, x :: xs =>
    if pat.isPrefixOf (x :: xs) then
      rep ++ replaceFrom pat rep fuel (List.drop pat.length (x :: xs))
    else
      x :: replaceFrom pat rep fuel xs

/-- Python `s.replace(pat, rep)` (all occurrences; `pat` non-empty in all
uses in `action.py`). -/
def strReplace (s pat rep : String) : String :=
  (replaceFrom pat.toList rep.toList s.toList.length s.toList).asString

/-- Python `sep.join(parts)`. -/
def joinWith (sep : String) : List String → String
  | [] => ""
  | [x] => x
  | x :: y :: xs => x ++ sep ++ joinWith sep (y :: xs)

/-- Python `os.path.join(a, b)` for the simple two-argument relative case
used throughout `action.py`. -/
def joinPath (a b : String) : String := a ++ "/" ++ b

/-! ## JSON values and the file system -/

/-- A JSON value, as produced by `json.load`.  Objects are ordered
association lists with unique keys (Python dict semantics). -/
inductive Json where
  | null
  | bool (b : Bool)
  | num (n : Int)
  | str (s : String)
  | arr (xs : List Json)
  | obj (kvs : List (String × Json))

/-- Python truthiness of a JSON value (`not x`). -/
def jsonFalsy : Json → Bool
  | .null => true
  | .bool b => !b
  | .num n => n == 0
  | .str s => s == ""
  | .arr xs => xs.isEmpty
  | .obj kvs => kvs.isEmpty

/-- Python `x == "s"` where `x` came from JSON (false on non-strings). -/
def jsonEqStr (j : Json) (s : String) : Bool :=
  match j with
  | .str t => t == s
  | _ => false

/-- Python `x == True` (`True == 1` in Python). -/
def jsonIsTrue : Json → Bool
  | .bool b => b
  | .num n => n == 1
  | _ => false

/-- First binding of `k` in an association list (dict keys are unique). -/
def lookupKey (k : String) : List (String × Json) → Option Json
  | [] => none
  | (k', v) :: rest => if k' == k then some v else lookupKey k rest

/-- Replace the binding of `k`, or append it (`d[k] = v`). -/
def setKey (k : String) (v : Json) : List (String × Json) → List (String × Json)
  | [] => [(k, v)]
  | (k', v') :: rest =>
    if k' == k then (k', v) :: rest else (k', v') :: setKey k v rest

/-- The errors the embedded fragments of `action.py` can raise. -/
inductive PyError where
  /-- `open` on an absent file (`FileNotFoundError`). -/
  | fileNotFound (path : String)
  /-- `json.load` on unparsable content (`json.JSONDecodeError`). -/
  | jsonDecode (path : String)
  /-- `d[k]` on a dict without key `k`. -/
  | keyError (key : String)
  /-- `raise ValueError(msg)`. -/
  | valueError (msg : String)
  /-- attribute access (e.g. `.get`, `.startswith`) on a wrong type. -/
  | attributeError
  /-- operation on a wrongly typed value. -/
  | typeError
  /-- `raise(msg)` where `msg` is a plain string: Python 3 raises
  `TypeError: exceptions must derive from BaseException` at this
  statement; the carried string records the message the code formats. -/
  | raisedStr (msg : String)
  /-- indexing past the end of a list (`cmd[0]` on an empty list). -/
  | indexError
  /-- `subprocess.CalledProcessError` (check=True, non-zero exit). -/
  | calledProcess (returncode : Int) (stdout : String) (stderr : String)
  /-- `subprocess.run` itself raised (e.g. `FileNotFoundError`/`OSError`). -/
  | osError
deriving DecidableEq, Repr

/-- Content of a file as seen by `read_json_file`. -/
inductive FileContent where
  | missing
  | invalid
  | valid (j : Json)

/-- The file system: content by path. -/
def FS := String → FileContent

/-- `read_json_file` (action.py:125): `open` + `json.load`. -/
def read_json_file (fs : FS) (file_name : String) : Except PyError Json :=
  match fs file_name with
  | .missing => .error (.fileNotFound file_name)
  | .invalid => .error (.jsonDecode file_name)
  | .valid j => .ok j

/-- Python `d.get(k, dflt)`; `AttributeError` when `d` is not a dict. -/
def pyDictGet (j : Json) (k : String) (dflt : Json) : Except PyError Json :=
  match j with
  | .obj kvs => .ok ((lookupKey k kvs).getD dflt)
  | _ => .error .attributeError

/-- Python `d[k]` on a JSON value; `KeyError` when absent, `TypeError`
when `d` is not a dict. -/
def pyDictIndex (j : Json) (k : String) : Except PyError Json :=
  match j with
  | .obj kvs =>
    match lookupKey k kvs with
    | some v => .ok v
    | none => .error (.keyError k)
  | _ => .error .typeError

/-- Python `d[k] = v` on a JSON value (`TypeError` on non-dicts). -/
def pyDictSet (j : Json) (k : String) (v : Json) : Except PyError Json :=
  match j with
  | .obj kvs => .ok (.obj (setKey k v kvs))
  | _ => .error .typeError

/-- Force a JSON value to a string (where Python would next call a `str`
method or pass it to `subprocess`). -/
def asStr (j : Json) : Except PyError String :=
  match j with
  | .str s => .ok s
  | _ => .error .attributeError

/-- Force every element to a string. -/
def asStrList : List Json → Except PyError (List String)
  | [] => .ok []
  | .str s :: rest => (asStrList rest).map (s :: ·)
  | _ :: _ => .error .typeError

/-- `as_list` (action.py:113): a list stays, falsy becomes `[]`, anything
else is wrapped in a singleton. -/
def as_list (j : Json) : List Json :=
  match j with
  | .arr xs => xs
  | x => if jsonFalsy x then [] else [x]

/-! ## The command executor `run` (action.py:158)

A process spawn either returns a completed process (return code plus
captured stdout/stderr) or itself raises (`OSError`).  The external
world is a function from the argument vector and the attempt index to
that outcome. -/

/-- Result of a completed `subprocess.run`. -/
structure CmdResult where
  returncode : Int
  stdout : String
  stderr : String
deriving DecidableEq, Repr

/-- Outcome of one `subprocess.run` call. -/
inductive SpawnOutcome where
  | ran (r : CmdResult)
  | osError
deriving DecidableEq, Repr

/-- The external world: outcome of the `i`-th spawn of a given argv. -/
def World := List String → Nat → SpawnOutcome

/-- Externally visible actions, in order of occurrence. -/
inductive Effect where
  /-- a `log(...)` call (print with flush). -/
  | logLine (s : String)
  /-- a bare `print(...)` of captured output. -/
  | printLine (s : String)
  /-- `os.makedirs(dir, exist_ok=True)`. -/
  | makedirs (dir : String)
  /-- a `subprocess.run(args, cwd=…, env=…)` invocation. -/
  | exec (argv : List String) (cwd : Option String)
      (env : Option (List (String × String)))
  /-- `time.sleep(1)` between retries. -/
  | sleep
  /-- `write_json_file(path, data)`. -/
  | writeJson (path : String) (data : Json)

/-- An exception propagating out of `run`. -/
inductive RunError where
  | calledProcess (r : CmdResult)
  | osError
deriving DecidableEq, Repr

/-- What a call to `run` produced: its outcome, how many times the
command was attempted, how many `time.sleep(1)` calls happened, and the
effect trace. -/
structure RunResult where
  outcome : Except RunError CmdResult
  attempts : Nat
  sleeps : Nat
  trace : List Effect

/-- The first retry pattern occurring in the captured stdout or stderr
(the loop at action.py:189 breaks at the first match). -/
def firstMatch (pats : List String) (out err : String) : Option String :=
  pats.find? (fun p => strContains out p || strContains err p)

/-- Result of an attempt whose spawn itself raised (the exception is
not a `CalledProcessError`, so the retry logic never sees it). -/
def attemptOsError (args : List String) (cwd : Option String)
    (env : Option (List (String × String))) : RunResult :=
  ⟨.error .osError, 1, 0, [.exec args cwd env]⟩

/-- Result of a successful attempt: captured output printed, result
returned. -/
def attemptOk (args : List String) (cwd : Option String)
    (env : Option (List (String × String))) (r : CmdResult) : RunResult :=
  ⟨.ok r, 1, 0, [.exec args cwd env, .printLine r.stdout, .printLine r.stderr]⟩

/-- Result of a final failed attempt: captured output printed, the
`CalledProcessError` re-raised. -/
def attemptFail (args : List String) (cwd : Option String)
    (env : Option (List (String × String))) (r : CmdResult) : RunResult :=
  ⟨.error (.calledProcess r), 1, 0,
   [.exec args cwd env, .printLine r.stdout, .printLine r.stderr]⟩

/-- The retry loop of `run` (action.py:177-202).  `i` is the current
attempt index, the second argument the number of additional attempts
still allowed (`retry_count - 1 - i`).  Each iteration spawns the
command; a zero return code (or `check=False`) returns the result;
otherwise the first matching retry pattern is looked up, and the retry
condition at action.py:194 is `if retry_pattern_matched and i <
retry_count - 1` — a truthiness test, so a matched **empty** pattern
(falsy in Python) does not retry; a truthy match with attempts
remaining logs, sleeps and retries with the same argument vector;
otherwise the captured output is printed and the error re-raised. -/
def run_go (world : World) (args : List String) (cwd : Option String)
    (env : Option (List (String × String))) (check : Bool)
    (print_command : Bool) (pats : List String) : Nat → Nat → RunResult
  | i, 0 =>
    match world args i with
    | .osError => attemptOsError args cwd env
    | .ran r =>
      if r.returncode == 0 || !check then attemptOk args cwd env r
      else attemptFail args cwd env r
  | i, rem + 1 =>
    match world args i with
    | .osError => attemptOsError args cwd env
    | .ran r =>
      if r.returncode == 0 || !check then attemptOk args cwd env r
      else
        match firstMatch pats r.stdout r.stderr with
        | none => attemptFail args cwd env r
        | some pat =>
          if pat == "" then attemptFail args cwd env r
          else
            let rest := run_go world args cwd env check print_command pats (i + 1) rem
            ⟨rest.outcome, rest.attempts + 1, rest.sleeps + 1,
              [Effect.exec args cwd env] ++
              (if print_command then
                [Effect.logLine ("Retrying command because of '" ++ pat ++
                  "' error (retry pattern matched)")]
               else []) ++
              [Effect.sleep] ++ rest.trace⟩

/-- `run` (action.py:158): prefix `sudo` when requested and available,
echo the command unless suppressed, clamp `retry_count` to at least one,
and enter the retry loop.  (The `input` parameter only feeds stdin and
is not modelled.) -/
def run (world : World) (args : List String) (cwd : Option String)
    (env : Option (List (String × String))) (check : Bool)
    (sudoFlag : Bool) (hasSudo : Bool) (print_command : Bool)
    (retry_patterns : List String) (retry_count : Int) : RunResult :=
  let args := if sudoFlag && hasSudo then "sudo" :: args else args
  let pre := if print_command then [Effect.logLine (joinWith " " args)] else []
  let res := run_go world args cwd env check print_command retry_patterns 0
    ((max retry_count 1).toNat - 1)
  ⟨res.outcome, res.attempts, res.sleeps, pre ++ res.trace⟩

/-! ## Problem matchers (action.py:38, 327-376) -/

/-- `pluralize` (action.py:92). -/
def pluralize (s : String) (count : Nat) : String :=
  if count == 1 then s else s ++ "s"

/-- Registry entry: declared scope and provider tags. -/
structure PMInfo where
  scope : String
  provides : List String
deriving DecidableEq, Repr

/-- `problem_matcher_definitions` (action.py:38). -/
def problem_matcher_definitions : List (String × PMInfo) :=
  [("compile", ⟨"build", ["compile-gcc", "compile-msvc"]⟩),
   ("analyze-build", ⟨"analyze", ["analyze-build"]⟩),
   ("asan", ⟨"run", ["asan"]⟩),
   ("msan", ⟨"run", ["msan"]⟩),
   ("ubsan", ⟨"run", ["ubsan"]⟩),
   ("valgrind", ⟨"run", ["valgrind-commons", "valgrind-memcheck"]⟩)]

/-- Registry lookup (`pm in problem_matcher_definitions` / indexing). -/
def lookupPM (pm : String) : Option PMInfo :=
  problem_matcher_definitions.lookup pm

/-- `problem_matcher_substitutions` (action.py:48) applied to one name. -/
def substitutePM (pm : String) : String :=
  if pm == "cpp" then "compile" else pm

/-- The non-`auto` loop of `process_problem_matchers` (action.py:349-361):
skip empty names, substitute legacy names, validate against the registry
(the `raise("…")` on an unknown name is modelled by `.raisedStr` carrying
the formatted message; at runtime Python raises a `TypeError` at that
same statement because the operand is a plain string). -/
def process_problem_matchers_go : List String → Except PyError (List String)
  | [] => .ok []
  | pm :: rest =>
    if pm == "" then process_problem_matchers_go rest
    else
      let pm := substitutePM pm
      match lookupPM pm with
      | some _ => (process_problem_matchers_go rest).map (pm :: ·)
      | none =>
        .error (.raisedStr ("Problem matcher " ++ pm ++
          " is not provided by build-actions"))

/-- `process_problem_matchers` (action.py:327). -/
def process_problem_matchers (problem_matcher : String) (diagnostics : String) :
    Except PyError (List String) :=
  if problem_matcher == "auto" then
    let out := ["compile"]
    let out := if diagnostics == "analyze-build" then out ++ ["analyze-build"] else out
    let out := if diagnostics == "asan" then out ++ ["asan"] else out
    let out := if diagnostics == "msan" then out ++ ["msan"] else out
    let out := if diagnostics == "ubsan" then out ++ ["ubsan"] else out
    let out := if diagnostics == "valgrind" then out ++ ["valgrind"] else out
    .ok out
  else
    process_problem_matchers_go (splitComma problem_matcher)

/-- The `::add-matcher::` line emitted for matcher `pm` (action.py:369),
with `root` standing for `build_actions_root`. -/
def addMatcherLine (root pm : String) : String :=
  "::add-matcher::" ++ joinPath root ("problem-matcher-" ++ pm ++ ".json")

/-- The `::remove-matcher …::` line emitted for a provider tag
(action.py:376). -/
def removeMatcherLine (item : String) : String :=
  "::remove-matcher owner=" ++ item ++ "::"

/-- `begin_problem_matchers` (action.py:365): one add line per matcher
whose declared scope equals the requested scope (`KeyError` on a name
absent from the registry). -/
def begin_problem_matchers (root : String) :
    List String → String → Except PyError (List Effect)
  | [], _ => .ok []
  | pm :: rest, scope =>
    match lookupPM pm with
    | none => .error (.keyError pm)
    | some info =>
      (begin_problem_matchers root rest scope).map fun tr =>
        (if info.scope == scope then [Effect.logLine (addMatcherLine root pm)]
         else []) ++ tr

/-- `end_problem_matchers` (action.py:371): one remove line per provider
tag of each matcher whose declared scope equals the requested scope. -/
def end_problem_matchers :
    List String → String → Except PyError (List Effect)
  | [], _ => .ok []
  | pm :: rest, scope =>
    match lookupPM pm with
    | none => .error (.keyError pm)
    | some info =>
      (end_problem_matchers rest scope).map fun tr =>
        (if info.scope == scope then
          info.provides.map (fun item => Effect.logLine (removeMatcherLine item))
         else []) ++ tr

/-! ## Build utilities (action.py:268-301) and shared step context -/

/-- `is_compiler_gcc` (action.py:268). -/
def is_compiler_gcc (compiler : String) : Bool :=
  strStartsWith compiler "gcc"

/-- `is_compiler_clang` (action.py:271). -/
def is_compiler_clang (compiler : String) : Bool :=
  strStartsWith compiler "clang"

/-- `c_compiler_executable` (action.py:287). -/
def c_compiler_executable (compiler : String) : Except PyError String :=
  if is_compiler_gcc compiler || is_compiler_clang compiler then .ok compiler
  else .error (.valueError ("Invalid compiler: " ++ compiler))

/-- `cpp_compiler_executable` (action.py:293). -/
def cpp_compiler_executable (compiler : String) : Except PyError String :=
  if is_compiler_gcc compiler then .ok (strReplace compiler "gcc" "g++")
  else if is_compiler_clang compiler then .ok (strReplace compiler "clang" "clang++")
  else .error (.valueError ("Invalid compiler: " ++ compiler))

/-- `analyze_build_executable` (action.py:301). -/
def analyze_build_executable (compiler : String) : String :=
  strReplace compiler "clang" "analyze-build"

/-- `architecture_vs_platform_map` (action.py:67). -/
def architecture_vs_platform_map : List (String × String) :=
  [("x86", "Win32"), ("x64", "x64"), ("arm", "ARM"), ("aarch64", "ARM64")]

/-- `default_valgrind_arguments` (action.py:50). -/
def default_valgrind_arguments : List String :=
  ["--leak-check=full", "--show-reachable=yes", "--track-origins=yes"]

/-- `actions_config_name` (action.py:21). -/
def actions_config_name : String := "build-action-config.json"

/-- Host context the steps read: the process-spawn world, the file
system, `os.getcwd`/`os.path.abspath`/`os.path.isfile`/`os.path.isdir`,
`os.environ`, the lazily probed `has_sudo` flag, `cpu_count()`,
`platform.system()`, the `log_options["groups"]` flag, and
`build_actions_root`. -/
structure Env where
  world : World
  fs : FS
  cwd : String
  abspath : String → String
  isFile : String → Bool
  isDir : String → Bool
  osEnviron : List (String × String)
  hasSudo : Bool
  cpuCount : Nat
  hostOS : String
  groups : Bool
  root : String

/-- CLI arguments as the steps receive them (after `normalize_arguments`
has replaced `args.problem_matcher` by the processed name list). -/
structure Args where
  config : Option String
  compiler : String
  diagnostics : String
  generator : String
  architecture : String
  source_dir : String
  build_type : String
  build_defs : String
  build_dir : String
  problem_matcher : List String

/-- Outcome of a step: the effect trace and either normal return or a
propagating exception. -/
structure StepResult where
  trace : List Effect
  outcome : Except PyError Unit

/-- `begin_group` (action.py:84): logs only when groups are enabled. -/
def group_begin (E : Env) (g : String) : List Effect :=
  if E.groups then [Effect.logLine ("::group::" ++ g)] else []

/-- `end_group` (action.py:88). -/
def group_end (E : Env) : List Effect :=
  if E.groups then [Effect.logLine "::endgroup::"] else []

/-- Convert a `run` exception to the step-level error type. -/
def runErrToPy : RunError → PyError
  | .calledProcess r => .calledProcess r.returncode r.stdout r.stderr
  | .osError => .osError

/-- `env[k] = v` on the environment dict copy. -/
def setEnv : List (String × String) → String → String → List (String × String)
  | [], k, v => [(k, v)]
  | (k', v') :: rest, k, v =>
    if k' == k then (k', v) :: rest else (k', v') :: setEnv rest k v

/-! ## Configure step (action.py:633) -/

/-- The cmake argument vector and environment built by `configure_step`
(action.py:661-687): the generator selection, the Visual Studio platform
flag or the CC, CXX, `-m32` and build-type settings, the `-D` build
definitions,
the per-diagnostic extra definitions from the input configuration, and
the trailing compile-commands export flag. -/
def configure_cmd_env (E : Env) (args : Args) (actions_config : Json)
    (source_dir : String) :
    Except PyError (List String × List (String × String)) := do
  let cmd := ["cmake", source_dir, "-G", args.generator]
  let env := E.osEnviron
  let (cmd, env) ←
    if strStartsWith args.generator "Visual Studio" then
      match architecture_vs_platform_map.lookup args.architecture with
      | some plat => pure (cmd ++ ["-A", plat], env)
      | none => throw (PyError.keyError args.architecture)
    else do
      let cc ← c_compiler_executable args.compiler
      let cxx ← cpp_compiler_executable args.compiler
      let env := setEnv (setEnv env "CC" cc) "CXX" cxx
      let env :=
        if args.architecture == "x86" then
          setEnv (setEnv (setEnv env "CFLAGS" "-m32") "CXXFLAGS" "-m32") "LDFLAGS" "-m32"
        else env
      let cmd :=
        if args.build_type == "" then cmd
        else cmd ++ ["-DCMAKE_BUILD_TYPE=" ++ args.build_type]
      pure (cmd, env)
  let cmd :=
    if args.build_defs == "" then cmd
    else cmd ++ (splitComma args.build_defs).map (fun d => "-D" ++ d)
  let cmd ←
    if args.diagnostics == "" then pure cmd
    else do
      let dj ← pyDictGet actions_config "diagnostics" (.obj [])
      let dc ← pyDictGet dj args.diagnostics (.obj [])
      let defsJ ← pyDictGet dc "definitions" (.arr [])
      let defs ← asStrList (as_list defsJ)
      pure (cmd ++ defs.map (fun d => "-D" ++ d))
  pure (cmd ++ ["-DCMAKE_EXPORT_COMPILE_COMMANDS=ON"], env)

/-- The `"build"` record `configure_step` stores (action.py:693-702). -/
def configure_record (args : Args) : Json :=
  .obj [("build_tool", .str "cmake"),
        ("build_type", .str args.build_type),
        ("build_defs", .str args.build_defs),
        ("config", match args.config with | some c => .str c | none => .null),
        ("compiler", .str args.compiler),
        ("generator", .str args.generator),
        ("diagnostics", .str args.diagnostics),
        ("architecture", .str args.architecture)]

/-- `configure_step` (action.py:633): resolve directories, load the
optional input configuration, build the cmake invocation, create the
build directory, run cmake, and — only when that run returned — store
the merged configuration record. -/
def configure_step (E : Env) (args : Args) : StepResult :=
  let t0 := group_begin E "Configure"
  let source_dir := if args.source_dir == "" then E.cwd else E.abspath args.source_dir
  let build_dir := args.build_dir
  match (match args.config with
         | some c => read_json_file E.fs c
         | none => Except.ok (Json.obj [])) with
  | .error e => ⟨t0, .error e⟩
  | .ok actions_config =>
    match configure_cmd_env E args actions_config source_dir with
    | .error e => ⟨t0, .error e⟩
    | .ok (cmd, env) =>
      let t1 := t0 ++ [Effect.makedirs build_dir]
      let rr := run E.world cmd (some build_dir) (some env) true false E.hasSudo true [] 3
      match rr.outcome with
      | .error er => ⟨t1 ++ rr.trace, .error (runErrToPy er)⟩
      | .ok _ =>
        match pyDictSet actions_config "build" (configure_record args) with
        | .error e => ⟨t1 ++ rr.trace, .error e⟩
        | .ok merged =>
          ⟨t1 ++ rr.trace ++
            [Effect.writeJson (joinPath build_dir actions_config_name) merged] ++
            group_end E,
           .ok ()⟩

/-! ## Build step (action.py:714) -/

/-- The `analyze-build` argument vector (action.py:726-731). -/
def analyze_cmd_of (compiler build_dir : String) : List String :=
  [analyze_build_executable compiler, "-v",
   "--cdb", build_dir ++ "/" ++ "compile_commands.json",
   "--output", "analysis-output"]

/-- The analyze pass of `build_step` (action.py:725-737): when the
record's diagnostics say `analyze-build`, bracket the `analyze-build`
invocation with the analyze-scope matcher lifecycle.  Returns the
emitted effects and the propagating exception, if any; the end
annotations are in straight-line code after `run`, so they are reached
only when the bracketed invocation returns. -/
def analyze_phase (E : Env) (args : Args) (build_dir : String)
    (diagnosticsJ : Json) : List Effect × Option PyError :=
  if jsonEqStr diagnosticsJ "analyze-build" then
    let analyze_cmd := analyze_cmd_of args.compiler build_dir
    let t := group_begin E "Analysis"
    match begin_problem_matchers E.root args.problem_matcher "analyze" with
    | .error e => (t, some e)
    | .ok btr =>
      let rr := run E.world analyze_cmd none none true false E.hasSudo true [] 3
      match rr.outcome with
      | .error er => (t ++ btr ++ rr.trace, some (runErrToPy er))
      | .ok _ =>
        match end_problem_matchers args.problem_matcher "analyze" with
        | .error e => (t ++ btr ++ rr.trace, some e)
        | .ok etr => (t ++ btr ++ rr.trace ++ etr ++ group_end E, none)
  else ([], none)

/-- The cmake build invocation of `build_step` (action.py:739-741):
parallelism sized to host concurrency, with the profile and quiet flag
set appended for Visual Studio generators (whose `build_type` must then
be a string). -/
def build_cmd (E : Env) (build_dir : String) (generator : String)
    (buildTypeJ : Json) : Except PyError (List String) :=
  let base := ["cmake", "--build", build_dir, "--parallel", toString E.cpuCount]
  if strStartsWith generator "Visual Studio" then
    (asStr buildTypeJ).map fun bt =>
      base ++ ["--config", bt, "--", "-nologo", "-v:minimal"]
  else Except.ok base

/-- `build_step` (action.py:714): load the configuration record, read
`generator`, `build_type` and `diagnostics` from its `"build"` entry,
optionally run the `analyze-build` pass bracketed by the analyze-scope
matchers, then run the cmake build bracketed by the build-scope
matchers.  The brackets mirror the source exactly: `run` failures
propagate before the end annotations are reached (there is no
try/finally around them). -/
def build_step (E : Env) (args : Args) : StepResult :=
  match read_json_file E.fs (joinPath args.build_dir actions_config_name) with
  | .error e => ⟨[], .error e⟩
  | .ok actions_config =>
    let build_dir := args.build_dir
    match pyDictIndex actions_config "build" with
    | .error e => ⟨[], .error e⟩
    | .ok buildEntry =>
    match pyDictIndex buildEntry "generator" with
    | .error e => ⟨[], .error e⟩
    | .ok generatorJ =>
    match pyDictIndex buildEntry "build_type" with
    | .error e => ⟨[], .error e⟩
    | .ok buildTypeJ =>
    match pyDictIndex buildEntry "diagnostics" with
    | .error e => ⟨[], .error e⟩
    | .ok diagnosticsJ =>
      match analyze_phase E args build_dir diagnosticsJ with
      | (tr, some e) => ⟨tr, .error e⟩
      | (tr, none) =>
        match asStr generatorJ with
        | .error e => ⟨tr, .error e⟩
        | .ok generator =>
          match build_cmd E build_dir generator buildTypeJ with
          | .error e => ⟨tr, .error e⟩
          | .ok cmd =>
            let t := tr ++ group_begin E "Build"
            match begin_problem_matchers E.root args.problem_matcher "build" with
            | .error e => ⟨t, .error e⟩
            | .ok btr =>
              let rr := run E.world cmd none none true false E.hasSudo true [] 3
              match rr.outcome with
              | .error er => ⟨t ++ btr ++ rr.trace, .error (runErrToPy er)⟩
              | .ok _ =>
                match end_problem_matchers args.problem_matcher "build" with
                | .error e => ⟨t ++ btr ++ rr.trace, .error e⟩
                | .ok etr => ⟨t ++ btr ++ rr.trace ++ etr ++ group_end E, .ok ()⟩

/-! ## Test step (action.py:754) -/

/-- One iteration of the test loop (action.py:773-804): resolve the
executable, and if present run it inside a log group (closing the group
via `finally` even when an exception propagates), wrapping with
valgrind when the record's diagnostics say so; a non-zero return code
or a propagating exception records the test as failed.  An absent
executable is a recorded failure unless marked optional.  Returns the
trace, the failures appended, and the propagating exception if any. -/
def run_one_test (E : Env) (actions_config : Json) (build_dir : String)
    (test : Json) : List Effect × List String × Option PyError :=
  match pyDictIndex test "cmd" with
  | .error e => ([], [], some e)
  | .ok cmdJ =>
    match cmdJ with
    | .arr cmdElems =>
      match asStrList cmdElems with
      | .error e => ([], [], some e)
      | .ok cmd =>
        match cmd with
        | [] => ([], [], some .indexError)
        | app :: cmdRest =>
          let executable := E.abspath (joinPath build_dir app)
          let executable :=
            if E.hostOS == "Windows" then executable ++ ".exe" else executable
          if E.isFile executable then
            let group := joinWith " " cmd
            let t0 := group_begin E group
            let cmd := executable :: cmdRest
            match (match pyDictIndex actions_config "build" with
              | .error e => .error e
              | .ok buildEntry =>
                match pyDictIndex buildEntry "diagnostics" with
                | .error e => .error e
                | .ok d =>
                  if jsonEqStr d "valgrind" then
                    match pyDictGet actions_config "valgrind_arguments"
                        (.arr (default_valgrind_arguments.map Json.str)) with
                    | .error e => .error e
                    | .ok (.arr l) =>
                      (asStrList l).map fun va => ["valgrind"] ++ va ++ cmd
                    | .ok _ => .error .typeError
                  else Except.ok cmd : Except PyError (List String)) with
            | .error e => (t0 ++ group_end E, [app], some e)
            | .ok cmd =>
              let rr := run E.world cmd (some build_dir) none false false E.hasSudo
                false [] 3
              match rr.outcome with
              | .error er => (t0 ++ rr.trace ++ group_end E, [app], some (runErrToPy er))
              | .ok r =>
                if r.returncode == 0 then
                  (t0 ++ rr.trace ++ group_end E, [], none)
                else
                  (t0 ++ rr.trace ++
                    [Effect.logLine ("Test returned " ++ toString r.returncode)] ++
                    group_end E, [app], none)
          else
            match pyDictGet test "optional" (.bool false) with
            | .error e => ([], [], some e)
            | .ok opt =>
              if jsonIsTrue opt then ([], [], none)
              else
                ([Effect.logLine ("Test " ++ app ++ " not found and it's not optional.")],
                 [app], none)
    | _ => ([], [], some .typeError)

/-- The `for test in tests` loop (action.py:773): a propagating
exception aborts the loop with the failures recorded so far. -/
def test_loop (E : Env) (actions_config : Json) (build_dir : String) :
    List Json → List Effect × List String × Option PyError
  | [] => ([], [], none)
  | t :: rest =>
    match run_one_test E actions_config build_dir t with
    | (tr, fl, some e) => (tr, fl, some e)
    | (tr, fl, none) =>
      let (tr', fl', e') := test_loop E actions_config build_dir rest
      (tr ++ tr', fl ++ fl', e')

/-- Outcome of `test_step`: trace, exception, the exit code when
`exit(1)` was reached, and the recorded failures. -/
structure TestStepResult where
  trace : List Effect
  outcome : Except PyError Unit
  exitCode : Option Int
  failures : List String

/-- The test-binary directory resolution of `test_step`
(action.py:763-765): descend into the nested per-profile directory when
`build_type` is truthy and that directory exists. -/
def test_build_dir (E : Env) (build_dir : String) (buildTypeJ : Json) :
    Except PyError String :=
  if jsonFalsy buildTypeJ then Except.ok build_dir
  else (asStr buildTypeJ).map fun bt =>
    if E.isDir (joinPath build_dir bt) then joinPath build_dir bt else build_dir

/-- `test_step` (action.py:754): load the record, descend into the
nested per-profile directory for multi-configuration builds, iterate the
declared tests inside the run-scope matcher bracket, and on any recorded
failure emit the pluralized summary and `exit(1)`.  (Iterating a truthy
non-list `tests` value, which in Python would misbehave on the
element lookups, is modelled as a `TypeError`.) -/
def test_step (E : Env) (args : Args) : TestStepResult :=
  match read_json_file E.fs (joinPath args.build_dir actions_config_name) with
  | .error e => ⟨[], .error e, none, []⟩
  | .ok actions_config =>
    match pyDictIndex actions_config "build" with
    | .error e => ⟨[], .error e, none, []⟩
    | .ok buildEntry =>
    match pyDictIndex buildEntry "build_type" with
    | .error e => ⟨[], .error e, none, []⟩
    | .ok buildTypeJ =>
      match test_build_dir E args.build_dir buildTypeJ with
      | .error e => ⟨[], .error e, none, []⟩
      | .ok build_dir =>
        match pyDictGet actions_config "tests" (.arr []) with
        | .error e => ⟨[], .error e, none, []⟩
        | .ok testsJ =>
          if jsonFalsy testsJ then ⟨[], .ok (), none, []⟩
          else
            match testsJ with
            | .arr tests =>
              match begin_problem_matchers E.root args.problem_matcher "run" with
              | .error e => ⟨[], .error e, none, []⟩
              | .ok btr =>
                match test_loop E actions_config build_dir tests with
                | (ltr, failures, some e) => ⟨btr ++ ltr, .error e, none, failures⟩
                | (ltr, failures, none) =>
                  match end_problem_matchers args.problem_matcher "run" with
                  | .error e => ⟨btr ++ ltr, .error e, none, failures⟩
                  | .ok etr =>
                    if failures.isEmpty then
                      ⟨btr ++ ltr ++ etr, .ok (), none, failures⟩
                    else
                      let n := failures.length
                      ⟨btr ++ ltr ++ etr ++
                        [Effect.logLine (toString n ++ " " ++ pluralize "test" n ++
                          " out of " ++ toString tests.length ++ " failed: " ++
                          joinWith ", " failures)],
                        .ok (), some 1, failures⟩
            | _ => ⟨[], .error .typeError, none, []⟩

/-- Exit code of a `--step test` process run (action.py:857-872): an
uncaught exception makes the interpreter exit non-zero (1), an explicit
`exit(1)` exits 1, and otherwise `main` ends with `exit(0)`. -/
def test_process_exit (r : TestStepResult) : Int :=
  match r.outcome with
  | .error _ => 1
  | .ok _ => r.exitCode.getD 0

/-! ## Theorems -/

/-- C6: resolving the composite problem-matcher mode `auto` with the
diagnostic selection `valgrind` yields a matcher set that includes the
`compile` matcher and the `valgrind` matcher and includes none of
`msan`, `ubsan`, `asan`. -/
theorem auto_valgrind_matchers :
    ∃ l, process_problem_matchers "auto" "valgrind" = .ok l ∧
      "compile" ∈ l ∧ "valgrind" ∈ l ∧
      "msan" ∉ l ∧ "ubsan" ∉ l ∧ "asan" ∉ l :=
  ⟨["compile", "valgrind"], rfl, by decide, by decide, by decide, by decide, by decide⟩

/-- C8: the legacy problem-matcher name `cpp` resolves to exactly the
same matcher set as `compile`, for any diagnostic selection. -/
theorem cpp_resolves_as_compile (diagnostics : String) :
    process_problem_matchers "cpp" diagnostics =
      process_problem_matchers "compile" diagnostics := rfl

/-- Witness for `cpp_resolves_as_compile` at a concrete diagnostic
selection. -/
theorem cpp_resolves_as_compile_witness :
    process_problem_matchers "cpp" "valgrind" =
      process_problem_matchers "compile" "valgrind" :=
  cpp_resolves_as_compile "valgrind"

/-- The non-`auto` resolution loop fails whenever the list contains a
non-empty name whose substitution is not in the registry. -/
theorem go_error_of_unknown : ∀ (l : List String) (pm : String), pm ∈ l →
    pm ≠ "" → lookupPM (substitutePM pm) = none →
    ∃ bad, process_problem_matchers_go l =
      Except.error (.raisedStr ("Problem matcher " ++ bad ++
        " is not provided by build-actions"))
  | [], pm, hmem, _, _ => absurd hmem (List.not_mem_nil pm)
  | x :: rest, pm, hmem, hne, hunk => by
    unfold process_problem_matchers_go
    by_cases hx : x = ""
    · subst hx
      rw [if_pos (by simp)]
      have hmem' : pm ∈ rest := by
        rcases List.mem_cons.mp hmem with h | h
        · exact absurd h hne
        · exact h
      exact go_error_of_unknown rest pm hmem' hne hunk
    · rw [if_neg (by simpa using hx)]
      cases hcase : lookupPM (substitutePM x) with
      | none => exact ⟨substitutePM x, by simp [hcase]⟩
      | some info =>
        have hxpm : pm ≠ x := by
          intro h
          subst h
          rw [hunk] at hcase
          cases hcase
        have hmem' : pm ∈ rest := by
          rcases List.mem_cons.mp hmem with h | h
          · exact absurd h hxpm
          · exact h
        obtain ⟨bad, hb⟩ := go_error_of_unknown rest pm hmem' hne hunk
        exact ⟨bad, by simp [hcase, hb, Except.map]⟩

/-- C7: a non-`auto` problem-matcher mode containing a comma-separated
name that, after backward-compatibility substitution, is not in the
fixed registry makes resolution fail immediately with the
unknown-problem-matcher error. -/
theorem unknown_matcher_fails (mode diagnostics : String)
    (hmode : mode ≠ "auto") (pm : String) (hmem : pm ∈ splitComma mode)
    (hne : pm ≠ "") (hunk : lookupPM (substitutePM pm) = none) :
    ∃ bad, process_problem_matchers mode diagnostics =
      Except.error (.raisedStr ("Problem matcher " ++ bad ++
        " is not provided by build-actions")) := by
  unfold process_problem_matchers
  rw [if_neg (by simpa using hmode)]
  exact go_error_of_unknown (splitComma mode) pm hmem hne hunk

/-- Witness for `unknown_matcher_fails`: mode `compile,nope`. -/
theorem unknown_matcher_fails_witness :
    ∃ bad, process_problem_matchers "compile,nope" "" =
      Except.error (.raisedStr ("Problem matcher " ++ bad ++
        " is not provided by build-actions")) :=
  unknown_matcher_fails "compile,nope" "" (by decide) "nope" (by decide)
    (by decide) rfl

/-- The remove-matcher line determines the provider tag. -/
theorem removeMatcherLine_inj {p q : String}
    (h : removeMatcherLine p = removeMatcherLine q) : p = q := by
  unfold removeMatcherLine at h
  cases p with | mk pd =>
  cases q with | mk qd =>
  have h2 : ("::remove-matcher owner=".data ++ pd) ++ "::".data =
      ("::remove-matcher owner=".data ++ qd) ++ "::".data :=
    congrArg String.data h
  exact congrArg String.mk (List.append_cancel_left (List.append_cancel_right h2))

/-- C9: a matcher whose registry entry declares two provider tags emits,
for a begin/end pair at its declared scope, exactly one add-matcher line
and exactly two distinct remove-matcher lines (one per provider tag),
and emits nothing at any other scope. -/
theorem two_provider_matcher_bracket (root pm : String) (info : PMInfo)
    (hpm : lookupPM pm = some info) (p1 p2 : String)
    (hprov : info.provides = [p1, p2]) (hne : p1 ≠ p2) :
    begin_problem_matchers root [pm] info.scope =
        .ok [Effect.logLine (addMatcherLine root pm)] ∧
    end_problem_matchers [pm] info.scope =
        .ok [Effect.logLine (removeMatcherLine p1),
             Effect.logLine (removeMatcherLine p2)] ∧
    removeMatcherLine p1 ≠ removeMatcherLine p2 ∧
    (∀ scope', scope' ≠ info.scope →
      begin_problem_matchers root [pm] scope' = .ok [] ∧
      end_problem_matchers [pm] scope' = .ok []) := by
  refine ⟨?_, ?_, fun h => hne (removeMatcherLine_inj h), fun scope' hs => ⟨?_, ?_⟩⟩
  · simp [begin_problem_matchers, hpm, Except.map]
  · simp [end_problem_matchers, hpm, hprov, Except.map]
  · have : (info.scope == scope') = false := by
      simpa using fun h => hs h.symm
    simp [begin_problem_matchers, hpm, this, Except.map]
  · have : (info.scope == scope') = false := by
      simpa using fun h => hs h.symm
    simp [end_problem_matchers, hpm, this, Except.map]

/-- Witness for `two_provider_matcher_bracket` at the `valgrind`
matcher. -/
theorem two_provider_matcher_bracket_witness :
    begin_problem_matchers "/r" ["valgrind"] "run" =
        .ok [Effect.logLine (addMatcherLine "/r" "valgrind")] ∧
    end_problem_matchers ["valgrind"] "run" =
        .ok [Effect.logLine (removeMatcherLine "valgrind-commons"),
             Effect.logLine (removeMatcherLine "valgrind-memcheck")] ∧
    removeMatcherLine "valgrind-commons" ≠ removeMatcherLine "valgrind-memcheck" ∧
    begin_problem_matchers "/r" ["valgrind"] "build" = .ok [] ∧
    end_problem_matchers ["valgrind"] "build" = .ok [] := by
  have h := two_provider_matcher_bracket "/r" "valgrind"
    ⟨"run", ["valgrind-commons", "valgrind-memcheck"]⟩ rfl
    "valgrind-commons" "valgrind-memcheck" rfl (by decide)
  exact ⟨h.1, h.2.1, h.2.2.1, (h.2.2.2 "build" (by decide)).1,
    (h.2.2.2 "build" (by decide)).2⟩

/-- Attempt-count bounds for the retry loop: at least one attempt, at
most one more than the remaining-retry budget. -/
theorem run_go_attempts_bounds (world : World) (args : List String)
    (cwd : Option String) (env : Option (List (String × String)))
    (check pc : Bool) (pats : List String) :
    ∀ (rem i : Nat),
      1 ≤ (run_go world args cwd env check pc pats i rem).attempts ∧
      (run_go world args cwd env check pc pats i rem).attempts ≤ rem + 1
  | 0, i => by
    cases hw : world args i with
    | osError => simp [run_go, hw, attemptOsError]
    | ran r =>
      by_cases h0 : (r.returncode == 0 || !check) = true
      · simp [run_go, hw, h0, attemptOk]
      · simp [run_go, hw, h0, attemptFail]
  | rem + 1, i => by
    cases hw : world args i with
    | osError => simp [run_go, hw, attemptOsError]
    | ran r =>
      by_cases h0 : (r.returncode == 0 || !check) = true
      · simp [run_go, hw, h0, attemptOk]
      · cases hm : firstMatch pats r.stdout r.stderr with
        | none => simp [run_go, hw, h0, hm, attemptFail]
        | some pat =>
          by_cases hemp : (pat == "") = true
          · simp [run_go, hw, h0, hm, hemp, attemptFail]
          · have ih := run_go_attempts_bounds world args cwd env check pc pats rem (i + 1)
            simp [run_go, hw, h0, hm, hemp]
            omega

/-- C10: every call to the command executor attempts the command at
least once and at most `max(retry_count, 1)` times; it never returns
without having attempted the command. -/
theorem run_attempts_bounds (world : World) (args : List String)
    (cwd : Option String) (env : Option (List (String × String)))
    (check sudoFlag hasSudo pc : Bool) (pats : List String)
    (retry_count : Int) :
    1 ≤ (run world args cwd env check sudoFlag hasSudo pc pats retry_count).attempts ∧
    (run world args cwd env check sudoFlag hasSudo pc pats retry_count).attempts ≤
      (max retry_count 1).toNat := by
  have h := run_go_attempts_bounds world
    (if sudoFlag && hasSudo then "sudo" :: args else args) cwd env check pc pats
    ((max retry_count 1).toNat - 1) 0
  have hge : (1 : Int) ≤ max retry_count 1 := le_max_right retry_count 1
  unfold run
  refine ⟨h.1, le_trans h.2 ?_⟩
  omega

/-- Witness for `run_attempts_bounds` at a concrete world and a
negative retry count. -/
theorem run_attempts_bounds_witness :
    1 ≤ (run (fun _ _ => .ran ⟨0, "", ""⟩) ["true"] none none true false false true
        [] (-5)).attempts ∧
    (run (fun _ _ => .ran ⟨0, "", ""⟩) ["true"] none none true false false true
        [] (-5)).attempts ≤ (max (-5) 1).toNat :=
  run_attempts_bounds (fun _ _ => .ran ⟨0, "", ""⟩) ["true"] none none true false
    false true [] (-5)

/-- Concrete world whose command always fails with output `boom`. -/
def demoEmptySigWorld : World := fun _ _ => .ran ⟨1, "boom", ""⟩

/-- C1 counterexample: with the retry-signature set `{""}` and
`retry_count=3`, the empty signature occurs in the captured stdout (the
empty string is a substring of everything) and attempts remain, yet the
executor raises on the first failure with no sleep and no retry: the
matched pattern is falsy in the truthiness test at action.py:194, so
"retried iff some signature substring occurs and attempts remain" is
false of the program. -/
theorem run_empty_signature_no_retry :
    strContains "boom" "" = true ∧
    (run demoEmptySigWorld ["apt-get", "update"] none none true false false true
      [""] 3).attempts = 1 ∧
    (run demoEmptySigWorld ["apt-get", "update"] none none true false false true
      [""] 3).sleeps = 0 ∧
    (run demoEmptySigWorld ["apt-get", "update"] none none true false false true
      [""] 3).outcome = .error (.calledProcess ⟨1, "boom", ""⟩) :=
  ⟨rfl, rfl, rfl, rfl⟩

/-- C1 amended: with exit-code checking enabled, a failed attempt is
retried (after a sleep, with the same argument vector) exactly when the
first retry signature found in the captured stdout or stderr is
non-empty (the matched pattern must be truthy at action.py:194) and
attempts remain; a matched empty signature, no match, or no remaining
attempts raises immediately.  The two concrete scenarios hold as
stated: a command failing twice with the (non-empty) signature then
succeeding under `retry_count=3` returns the success result after three
attempts and two sleeps; a command whose failure output matches no
signature raises on the first failure with one attempt and no sleep. -/
theorem run_retry_characterization (world : World) (args : List String)
    (cwd : Option String) (env : Option (List (String × String))) (pc : Bool)
    (pats : List String) :
    (∀ i rem r pat, world args i = .ran r → r.returncode ≠ 0 →
      firstMatch pats r.stdout r.stderr = some pat → pat ≠ "" →
      run_go world args cwd env true pc pats i (rem + 1) =
        ⟨(run_go world args cwd env true pc pats (i + 1) rem).outcome,
         (run_go world args cwd env true pc pats (i + 1) rem).attempts + 1,
         (run_go world args cwd env true pc pats (i + 1) rem).sleeps + 1,
         [Effect.exec args cwd env] ++
          (if pc then
            [Effect.logLine ("Retrying command because of '" ++ pat ++
              "' error (retry pattern matched)")]
           else []) ++
          [Effect.sleep] ++
          (run_go world args cwd env true pc pats (i + 1) rem).trace⟩) ∧
    (∀ i rem r, world args i = .ran r → r.returncode ≠ 0 →
      firstMatch pats r.stdout r.stderr = none →
      run_go world args cwd env true pc pats i rem = attemptFail args cwd env r) ∧
    (∀ i rem r, world args i = .ran r → r.returncode ≠ 0 →
      firstMatch pats r.stdout r.stderr = some "" →
      run_go world args cwd env true pc pats i rem = attemptFail args cwd env r) ∧
    (∀ i r, world args i = .ran r → r.returncode ≠ 0 →
      run_go world args cwd env true pc pats i 0 = attemptFail args cwd env r) ∧
    (∀ r0 r1 r2, world args 0 = .ran r0 → world args 1 = .ran r1 →
      world args 2 = .ran r2 → r0.returncode ≠ 0 → r1.returncode ≠ 0 →
      r2.returncode = 0 →
      strContains r0.stdout "Connection timed out" = true →
      strContains r1.stdout "Connection timed out" = true →
      (run world args cwd env true false false pc
          ["Connection timed out"] 3).outcome = .ok r2 ∧
      (run world args cwd env true false false pc
          ["Connection timed out"] 3).attempts = 3 ∧
      (run world args cwd env true false false pc
          ["Connection timed out"] 3).sleeps = 2) ∧
    (∀ r0 retry_count, world args 0 = .ran r0 → r0.returncode ≠ 0 →
      firstMatch pats r0.stdout r0.stderr = none →
      (run world args cwd env true false false pc pats retry_count).outcome =
        .error (.calledProcess r0) ∧
      (run world args cwd env true false false pc pats retry_count).attempts = 1 ∧
      (run world args cwd env true false false pc pats retry_count).sleeps = 0) := by
  refine ⟨?_, ?_, ?_, ?_, ?_, ?_⟩
  · intro i rem r pat hw hne hm hpne
    simp [run_go, hw, hm, beq_eq_false_iff_ne.mpr hne,
      beq_eq_false_iff_ne.mpr hpne]
  · intro i rem r hw hne hm
    cases rem <;> simp [run_go, hw, hm, beq_eq_false_iff_ne.mpr hne]
  · intro i rem r hw hne hm
    cases rem <;> simp [run_go, hw, hm, beq_eq_false_iff_ne.mpr hne]
  · intro i r hw hne
    simp [run_go, hw, beq_eq_false_iff_ne.mpr hne]
  · intro r0 r1 r2 h0 h1 h2 hc0 hc1 hc2 hm0 hm1
    have e0 : firstMatch ["Connection timed out"] r0.stdout r0.stderr =
        some "Connection timed out" := by
      simp [firstMatch, hm0]
    have e1 : firstMatch ["Connection timed out"] r1.stdout r1.stderr =
        some "Connection timed out" := by
      simp [firstMatch, hm1]
    have hrem : ((max (3 : Int) 1).toNat - 1) = 2 := rfl
    have hne3 : (("Connection timed out" : String) == "") = false := rfl
    refine ⟨?_, ?_, ?_⟩ <;>
      simp [run, hrem, run_go, h0, h1, h2, e0, e1, hne3, attemptOk, hc2,
        beq_eq_false_iff_ne.mpr hc0, beq_eq_false_iff_ne.mpr hc1]
  · intro r0 retry_count h0 hne hm
    refine ⟨?_, ?_, ?_⟩ <;>
      · unfold run
        cases ((max retry_count 1).toNat - 1) <;>
          simp [run_go, h0, hm, beq_eq_false_iff_ne.mpr hne, attemptFail]

/-- Concrete world for the retry scenario: two failures whose output
contains the signature, then success. -/
def demoRetryWorld : World := fun _ i =>
  if i < 2 then .ran ⟨1, "error: Connection timed out", ""⟩ else .ran ⟨0, "ok", ""⟩

/-- Witness for `run_retry_characterization`: the `retry_count=3`
scenario at a concrete world. -/
theorem run_retry_characterization_witness :
    (run demoRetryWorld ["apt-get", "update", "-qq"] none none true false false
        true ["Connection timed out"] 3).outcome = .ok ⟨0, "ok", ""⟩ ∧
    (run demoRetryWorld ["apt-get", "update", "-qq"] none none true false false
        true ["Connection timed out"] 3).attempts = 3 ∧
    (run demoRetryWorld ["apt-get", "update", "-qq"] none none true false false
        true ["Connection timed out"] 3).sleeps = 2 :=
  (run_retry_characterization demoRetryWorld ["apt-get", "update", "-qq"] none none
      true ["Connection timed out"]).2.2.2.2.1
    ⟨1, "error: Connection timed out", ""⟩ ⟨1, "error: Connection timed out", ""⟩
    ⟨0, "ok", ""⟩ rfl rfl rfl (by decide) (by decide) rfl (by decide) (by decide)

/-- C5: a Build or Test invocation against a build directory whose
configuration record is absent or unparsable fails with the
file-not-found or parse error and performs no effects, rather than
proceeding with defaulted values. -/
theorem missing_record_fails (E : Env) (args : Args) :
    (E.fs (joinPath args.build_dir actions_config_name) = .missing →
      (build_step E args).outcome =
        .error (.fileNotFound (joinPath args.build_dir actions_config_name)) ∧
      (build_step E args).trace = [] ∧
      (test_step E args).outcome =
        .error (.fileNotFound (joinPath args.build_dir actions_config_name)) ∧
      (test_step E args).trace = []) ∧
    (E.fs (joinPath args.build_dir actions_config_name) = .invalid →
      (build_step E args).outcome =
        .error (.jsonDecode (joinPath args.build_dir actions_config_name)) ∧
      (build_step E args).trace = [] ∧
      (test_step E args).outcome =
        .error (.jsonDecode (joinPath args.build_dir actions_config_name)) ∧
      (test_step E args).trace = []) := by
  constructor <;> intro h <;>
    exact ⟨by simp [build_step, read_json_file, h],
           by simp [build_step, read_json_file, h],
           by simp [test_step, read_json_file, h],
           by simp [test_step, read_json_file, h]⟩

/-- Host context with an empty file system, for witnesses. -/
def demoMissingEnv : Env :=
  { world := fun _ _ => .ran ⟨0, "", ""⟩, fs := fun _ => .missing, cwd := "/w",
    abspath := id, isFile := fun _ => false, isDir := fun _ => false,
    osEnviron := [], hasSudo := false, cpuCount := 1, hostOS := "Linux",
    groups := false, root := "/r" }

/-- Plain argument set used by several witnesses. -/
def demoArgs : Args :=
  ⟨none, "gcc", "", "Ninja", "x64", "", "", "", "build", ["compile"]⟩

/-- Witness for `missing_record_fails` on an empty file system. -/
theorem missing_record_fails_witness :
    (build_step demoMissingEnv demoArgs).outcome =
      .error (.fileNotFound "build/build-action-config.json") ∧
    (test_step demoMissingEnv demoArgs).outcome =
      .error (.fileNotFound "build/build-action-config.json") := by
  have h := (missing_record_fails demoMissingEnv demoArgs).1 rfl
  exact ⟨h.1, h.2.2.1⟩

/-- Configuration record for the test-aggregator scenario: two declared
tests, `a` mandatory and `b` optional. -/
def c4Record : Json :=
  .obj [("build", .obj [("build_tool", .str "cmake"), ("build_type", .str ""),
          ("build_defs", .str ""), ("config", .null), ("compiler", .str "gcc"),
          ("generator", .str "Ninja"), ("diagnostics", .str ""),
          ("architecture", .str "x64")]),
        ("tests", .arr [.obj [("cmd", .arr [.str "a"])],
                        .obj [("cmd", .arr [.str "b"]), ("optional", .bool true)]])]

/-- Host context for the test-aggregator scenario: binary `a` present
and exiting with the given code, binary `b` absent. -/
def c4Env (aCode : Int) : Env :=
  { world := fun argv _ =>
      if argv == ["build/a"] then .ran ⟨aCode, "", ""⟩ else .osError,
    fs := fun p =>
      if p == "build/build-action-config.json" then .valid c4Record else .missing,
    cwd := "/w", abspath := id,
    isFile := fun p => p == "build/a", isDir := fun _ => false,
    osEnviron := [], hasSudo := false, cpuCount := 1, hostOS := "Linux",
    groups := false, root := "/r" }

/-- C4: with tests `[{cmd:[a]}, {cmd:[b], optional:true}]`, `a` present
and exiting 1 and `b` absent, the Test phase records exactly one failure
(`a`), emits the correctly pluralized summary
`1 test out of 2 failed: a`, and exits 1; when `a` exits 0 it records no
failure, emits no summary, and the process exits 0. -/
theorem test_aggregator_scenario :
    ((test_step (c4Env 1) demoArgs).failures = ["a"] ∧
     (test_step (c4Env 1) demoArgs).exitCode = some 1 ∧
     test_process_exit (test_step (c4Env 1) demoArgs) = 1 ∧
     ((test_step (c4Env 1) demoArgs).trace.any fun e =>
        match e with
        | .logLine s => s == "1 test out of 2 failed: a"
        | _ => false) = true) ∧
    ((test_step (c4Env 0) demoArgs).failures = [] ∧
     (test_step (c4Env 0) demoArgs).exitCode = none ∧
     test_process_exit (test_step (c4Env 0) demoArgs) = 0 ∧
     ((test_step (c4Env 0) demoArgs).trace.all fun e =>
        match e with
        | .logLine s => !strContains s "failed"
        | _ => true) = true) :=
  ⟨⟨rfl, rfl, rfl, rfl⟩, ⟨rfl, rfl, rfl, rfl⟩⟩

/-- Whether an effect is a JSON file write. -/
def Effect.isWriteJson : Effect → Bool
  | .writeJson _ _ => true
  | _ => false

/-- Whether an effect is a process spawn. -/
def Effect.isExec : Effect → Bool
  | .exec _ _ _ => true
  | _ => false

/-- Group-begin lines are never writes. -/
theorem group_begin_no_write (E : Env) (g : String) :
    ((group_begin E g).all fun x => !x.isWriteJson) = true := by
  cases hg : E.groups <;> simp [group_begin, hg, Effect.isWriteJson]

/-- Group-end lines are never writes. -/
theorem group_end_no_write (E : Env) :
    ((group_end E).all fun x => !x.isWriteJson) = true := by
  cases hg : E.groups <;> simp [group_end, hg, Effect.isWriteJson]

/-- Membership in a conditional singleton. -/
theorem mem_ite_singleton {b : Bool} {y l : Effect}
    (hy : y ∈ (if b = true then [l] else ([] : List Effect))) : y = l := by
  cases b
  · simp at hy
  · simpa using hy

/-- The retry loop writes no files and always spawns the command. -/
theorem run_go_trace_mem (world : World) (args : List String)
    (cwd : Option String) (env : Option (List (String × String)))
    (check pc : Bool) (pats : List String) :
    ∀ (rem i : Nat),
      (∀ x ∈ (run_go world args cwd env check pc pats i rem).trace,
        x.isWriteJson = false) ∧
      (∃ x ∈ (run_go world args cwd env check pc pats i rem).trace,
        x.isExec = true)
  | 0, i => by
    cases hw : world args i with
    | osError => simp [run_go, hw, attemptOsError, Effect.isWriteJson, Effect.isExec]
    | ran r =>
      by_cases h0 : (r.returncode == 0 || !check) = true
      · simp [run_go, hw, h0, attemptOk, Effect.isWriteJson, Effect.isExec]
      · simp [run_go, hw, h0, attemptFail, Effect.isWriteJson, Effect.isExec]
  | rem + 1, i => by
    cases hw : world args i with
    | osError => simp [run_go, hw, attemptOsError, Effect.isWriteJson, Effect.isExec]
    | ran r =>
      by_cases h0 : (r.returncode == 0 || !check) = true
      · simp [run_go, hw, h0, attemptOk, Effect.isWriteJson, Effect.isExec]
      · cases hm : firstMatch pats r.stdout r.stderr with
        | none =>
          simp [run_go, hw, h0, hm, attemptFail, Effect.isWriteJson, Effect.isExec]
        | some pat =>
          by_cases hemp : (pat == "") = true
          · simp [run_go, hw, h0, hm, hemp, attemptFail, Effect.isWriteJson,
              Effect.isExec]
          · have ih := run_go_trace_mem world args cwd env check pc pats rem (i + 1)
            have htr : (run_go world args cwd env check pc pats i (rem + 1)).trace =
                [Effect.exec args cwd env] ++
                (if pc = true then
                  [Effect.logLine ("Retrying command because of '" ++ pat ++
                    "' error (retry pattern matched)")]
                 else []) ++
                [Effect.sleep] ++
                (run_go world args cwd env check pc pats (i + 1) rem).trace := by
              simp [run_go, hw, h0, hm, hemp]
            constructor
            · intro x hx
              rw [htr] at hx
              rcases List.mem_append.mp hx with hx | hx
              · rcases List.mem_append.mp hx with hx | hx
                · rcases List.mem_append.mp hx with hx | hx
                  · rw [List.mem_singleton.mp hx]
                    rfl
                  · rw [mem_ite_singleton hx]
                    rfl
                · rw [List.mem_singleton.mp hx]
                  rfl
              · exact ih.1 x hx
            · refine ⟨Effect.exec args cwd env, ?_, rfl⟩
              rw [htr]
              exact List.mem_append_left _ (List.mem_append_left _
                (List.mem_append_left _ (List.mem_singleton.mpr rfl)))

/-- `run` writes no files and always spawns the command. -/
theorem run_trace_mem (world : World) (args : List String) (cwd : Option String)
    (env : Option (List (String × String))) (check sudoFlag hasSudo pc : Bool)
    (pats : List String) (rc : Int) :
    (∀ x ∈ (run world args cwd env check sudoFlag hasSudo pc pats rc).trace,
      x.isWriteJson = false) ∧
    (∃ x ∈ (run world args cwd env check sudoFlag hasSudo pc pats rc).trace,
      x.isExec = true) := by
  have ih := run_go_trace_mem world
    (if sudoFlag && hasSudo then "sudo" :: args else args) cwd env check pc pats
    ((max rc 1).toNat - 1) 0
  have htr : (run world args cwd env check sudoFlag hasSudo pc pats rc).trace =
      (if pc = true then
        [Effect.logLine (joinWith " "
          (if sudoFlag && hasSudo then "sudo" :: args else args))]
       else []) ++
      (run_go world (if sudoFlag && hasSudo then "sudo" :: args else args) cwd env
        check pc pats 0 ((max rc 1).toNat - 1)).trace := by
    simp only [run]
  constructor
  · intro x hx
    rw [htr] at hx
    rcases List.mem_append.mp hx with hx | hx
    · rw [mem_ite_singleton hx]
      rfl
    · exact ih.1 x hx
  · obtain ⟨ex, hex, hexe⟩ := ih.2
    refine ⟨ex, ?_, hexe⟩
    rw [htr]
    exact List.mem_append_right _ hex

/-- A decomposition of a write-free-except-one list at a write element
must split at that element. -/
theorem unique_write_decomp (B : List Effect) (w e : Effect)
    (hB : (B.all fun x => !x.isWriteJson) = true) (he : e.isWriteJson = true) :
    ∀ (A t1 t2 : List Effect), (A.all fun x => !x.isWriteJson) = true →
      A ++ w :: B = t1 ++ e :: t2 → t1 = A := by
  intro A
  induction A with
  | nil =>
    intro t1 t2 _ h
    cases t1 with
    | nil => rfl
    | cons x t1' =>
      exfalso
      have h2 : B = t1' ++ e :: t2 := by
        injection h with h1 h2
      have hBe : e ∈ B := by
        rw [h2]
        exact List.mem_append_right _ (List.mem_cons_self e t2)
      have hne := List.all_eq_true.mp hB e hBe
      rw [he] at hne
      simp at hne
  | cons a A' ih =>
    intro t1 t2 hA h
    cases t1 with
    | nil =>
      exfalso
      have h1 : a = e := by
        injection h with h1 h2
      have ha := List.all_eq_true.mp hA a (List.mem_cons_self a A')
      rw [h1, he] at ha
      simp at ha
    | cons x t1' =>
      have h12 : a = x ∧ A' ++ w :: B = t1' ++ e :: t2 := by
        constructor
        · injection h with h1 h2
        · injection h with h1 h2
      have hA' : (A'.all fun x => !x.isWriteJson) = true := by
        simp only [List.all_cons, Bool.and_eq_true] at hA
        exact hA.2
      rw [h12.1, ih t1' t2 hA' h12.2]

/-- Case analysis of `configure_step`: either it fails and its trace is
write-free, or it succeeds and its trace is write-free except for the
single record write, which an exec effect precedes. -/
theorem configure_step_cases (E : Env) (args : Args) :
    ((configure_step E args).outcome.isOk = false ∧
      ((configure_step E args).trace.all fun x => !x.isWriteJson) = true) ∨
    ((configure_step E args).outcome.isOk = true ∧
      ∃ A w B, (configure_step E args).trace = A ++ w :: B ∧
        w.isWriteJson = true ∧
        (A.all fun x => !x.isWriteJson) = true ∧
        (B.all fun x => !x.isWriteJson) = true ∧
        (A.any fun x => x.isExec) = true) := by
  cases hcfg : (match args.config with
      | some c => read_json_file E.fs c
      | none => Except.ok (Json.obj [])) with
  | error e =>
    have heq : configure_step E args = ⟨group_begin E "Configure", .error e⟩ := by
      simp only [configure_step, hcfg]
    rw [heq]
    exact .inl ⟨rfl, group_begin_no_write E "Configure"⟩
  | ok cfg =>
    cases hce : configure_cmd_env E args cfg
        (if args.source_dir == "" then E.cwd else E.abspath args.source_dir) with
    | error e =>
      have heq : configure_step E args = ⟨group_begin E "Configure", .error e⟩ := by
        simp only [configure_step, hcfg, hce]
      rw [heq]
      exact .inl ⟨rfl, group_begin_no_write E "Configure"⟩
    | ok cmdenv =>
      obtain ⟨cmd, env⟩ := cmdenv
      have hrun := run_trace_mem E.world cmd (some args.build_dir) (some env)
        true false E.hasSudo true [] 3
      have hmid : ∀ x ∈ Effect.makedirs args.build_dir ::
          (run E.world cmd (some args.build_dir) (some env) true false
            E.hasSudo true [] 3).trace, (!x.isWriteJson) = true := by
        intro x hx
        rcases List.mem_cons.mp hx with rfl | hx
        · rfl
        · simp [hrun.1 x hx]
      cases hrr : (run E.world cmd (some args.build_dir) (some env) true false
          E.hasSudo true [] 3).outcome with
      | error er =>
        have heq : configure_step E args =
            ⟨group_begin E "Configure" ++ Effect.makedirs args.build_dir ::
              (run E.world cmd (some args.build_dir) (some env) true false
                E.hasSudo true [] 3).trace, .error (runErrToPy er)⟩ := by
          simp only [configure_step, hcfg, hce, hrr]
          simp
        rw [heq]
        refine .inl ⟨rfl, List.all_eq_true.mpr ?_⟩
        intro x hx
        rcases List.mem_append.mp hx with hx | hx
        · exact List.all_eq_true.mp (group_begin_no_write E "Configure") x hx
        · exact hmid x hx
      | ok u =>
        cases hset : pyDictSet cfg "build" (configure_record args) with
        | error e2 =>
          have heq : configure_step E args =
              ⟨group_begin E "Configure" ++ Effect.makedirs args.build_dir ::
                (run E.world cmd (some args.build_dir) (some env) true false
                  E.hasSudo true [] 3).trace, .error e2⟩ := by
            simp only [configure_step, hcfg, hce, hrr, hset]
            simp
          rw [heq]
          refine .inl ⟨rfl, List.all_eq_true.mpr ?_⟩
          intro x hx
          rcases List.mem_append.mp hx with hx | hx
          · exact List.all_eq_true.mp (group_begin_no_write E "Configure") x hx
          · exact hmid x hx
        | ok merged =>
          have heq : configure_step E args =
              ⟨group_begin E "Configure" ++ Effect.makedirs args.build_dir ::
                ((run E.world cmd (some args.build_dir) (some env) true false
                    E.hasSudo true [] 3).trace ++
                  Effect.writeJson (joinPath args.build_dir actions_config_name)
                    merged :: group_end E), .ok ()⟩ := by
            simp only [configure_step, hcfg, hce, hrr, hset]
            simp
          rw [heq]
          refine .inr ⟨rfl,
            group_begin E "Configure" ++ Effect.makedirs args.build_dir ::
              (run E.world cmd (some args.build_dir) (some env) true false
                E.hasSudo true [] 3).trace,
            Effect.writeJson (joinPath args.build_dir actions_config_name) merged,
            group_end E, by simp, rfl, List.all_eq_true.mpr ?_,
            group_end_no_write E, List.any_eq_true.mpr ?_⟩
          · intro x hx
            rcases List.mem_append.mp hx with hx | hx
            · exact List.all_eq_true.mp (group_begin_no_write E "Configure") x hx
            · exact hmid x hx
          · obtain ⟨ex, hex, hexe⟩ := hrun.2
            exact ⟨ex, List.mem_append_right _ (List.mem_cons_of_mem _ hex), hexe⟩

/-- C2: a Configure invocation whose generator (cmake) run fails writes
no configuration record; a record write appears in the trace only when
the step succeeded, and an exec effect (the generator invocation)
precedes it. -/
theorem configure_no_record_on_failure (E : Env) (args : Args) :
    ((configure_step E args).outcome.isOk = false →
      ((configure_step E args).trace.all fun e => !e.isWriteJson) = true) ∧
    (∀ t1 e t2, (configure_step E args).trace = t1 ++ e :: t2 →
      e.isWriteJson = true →
      (configure_step E args).outcome.isOk = true ∧
      (t1.any fun x => x.isExec) = true) := by
  rcases configure_step_cases E args with ⟨hok, hall⟩ |
    ⟨hok, A, w, B, htr, hw, hA, hB, hexec⟩
  · refine ⟨fun _ => hall, ?_⟩
    intro t1 e t2 ht he
    exfalso
    have hmem : e ∈ (configure_step E args).trace := by
      rw [ht]
      exact List.mem_append_right _ (List.mem_cons_self e t2)
    have hne := List.all_eq_true.mp hall e hmem
    rw [he] at hne
    simp at hne
  · constructor
    · intro hbad
      rw [hok] at hbad
      simp at hbad
    · intro t1 e t2 ht he
      have ht1 : t1 = A := unique_write_decomp B w e hB he A t1 t2 hA
        (htr.symm.trans ht)
      exact ⟨hok, ht1 ▸ hexec⟩

/-- Host context whose every spawn fails, for the configure witness. -/
def demoFailEnv : Env :=
  { world := fun _ _ => .ran ⟨1, "CMake Error", ""⟩, fs := fun _ => .missing,
    cwd := "/w", abspath := id, isFile := fun _ => false, isDir := fun _ => false,
    osEnviron := [], hasSudo := false, cpuCount := 1, hostOS := "Linux",
    groups := false, root := "/r" }

/-- Witness for `configure_no_record_on_failure`: a failing cmake run
leaves a write-free trace. -/
theorem configure_no_record_on_failure_witness :
    ((configure_step demoFailEnv demoArgs).trace.all fun e =>
      !e.isWriteJson) = true :=
  (configure_no_record_on_failure demoFailEnv demoArgs).1 rfl

/-- Configuration record with a Ninja build and no diagnostics. -/
def c3Record : Json :=
  .obj [("build", .obj [("build_tool", .str "cmake"), ("build_type", .str ""),
          ("build_defs", .str ""), ("config", .null), ("compiler", .str "gcc"),
          ("generator", .str "Ninja"), ("diagnostics", .str ""),
          ("architecture", .str "x64")])]

/-- Host context in which every spawned command fails with a compile
error. -/
def c3Env : Env :=
  { world := fun _ _ => .ran ⟨1, "src/main.c:3:1: error: boom", ""⟩,
    fs := fun p => if p == "build/build-action-config.json" then .valid c3Record
      else .missing,
    cwd := "/w", abspath := id, isFile := fun _ => false, isDir := fun _ => false,
    osEnviron := [], hasSudo := false, cpuCount := 2, hostOS := "Linux",
    groups := false, root := "/r" }

/-- C3 counterexample: in `build_step` with the `compile` matcher and a
failing build command, the add-matcher line is emitted but no matching
remove-matcher line is — the end annotations are not emitted on the
failing exit path (there is no try/finally around the bracket in
action.py), refuting the claim that they are emitted on every exit
path. -/
theorem build_step_drops_end_annotations :
    ((build_step c3Env demoArgs).trace.any fun e =>
      match e with
      | .logLine s => strStartsWith s "::add-matcher::"
      | _ => false) = true ∧
    ((build_step c3Env demoArgs).trace.all fun e =>
      match e with
      | .logLine s => !strStartsWith s "::remove-matcher"
      | _ => true) = true ∧
    (build_step c3Env demoArgs).outcome.isOk = false :=
  ⟨rfl, rfl, rfl⟩

/-- Record with a Ninja build, no diagnostics, and one declared test. -/
def c3bRecord : Json :=
  .obj [("build", .obj [("build_tool", .str "cmake"), ("build_type", .str ""),
          ("build_defs", .str ""), ("config", .null), ("compiler", .str "gcc"),
          ("generator", .str "Ninja"), ("diagnostics", .str ""),
          ("architecture", .str "x64")]),
        ("tests", .arr [.obj [("cmd", .arr [.str "a"])]])]

/-- Host context whose every spawn raises an OS error, with test binary
`a` present. -/
def c3bEnv : Env :=
  { world := fun _ _ => .osError,
    fs := fun p => if p == "build/build-action-config.json" then .valid c3bRecord
      else .missing,
    cwd := "/w", abspath := id, isFile := fun p => p == "build/a",
    isDir := fun _ => false, osEnviron := [], hasSudo := false, cpuCount := 1,
    hostOS := "Linux", groups := false, root := "/r" }


/-- C3 amended: the begin/end problem-matcher brackets are not closed on
every exit path; for each of the three scopes the end annotations are
emitted exactly when the bracketed work completes without raising.
Analyze scope: a raising `analyze-build` run leaves the begin lines and
the run trace with no end annotations, and `build_step` propagates the
exception unchanged, while a returning run is followed by the end
annotations.  Build scope, on every path that reaches it (any
diagnostics, any generator): a raising build run leaves the begin lines
and the run trace with no end annotations and the error propagates,
while a returning run is followed by them.  Run scope: a test-loop
exception skips the run-scope end annotations (only the per-test log
group closes, via the finally inside the loop), while a completed loop
emits them. -/
theorem bracket_end_emitted_iff_success (E : Env) (args : Args) :
    (∀ build_dir dJ btrA er, jsonEqStr dJ "analyze-build" = true →
      begin_problem_matchers E.root args.problem_matcher "analyze" = .ok btrA →
      (run E.world (analyze_cmd_of args.compiler build_dir) none none true false
        E.hasSudo true [] 3).outcome = .error er →
      analyze_phase E args build_dir dJ =
        (group_begin E "Analysis" ++ btrA ++
          (run E.world (analyze_cmd_of args.compiler build_dir) none none true
            false E.hasSudo true [] 3).trace,
         some (runErrToPy er))) ∧
    (∀ build_dir dJ btrA etrA u, jsonEqStr dJ "analyze-build" = true →
      begin_problem_matchers E.root args.problem_matcher "analyze" = .ok btrA →
      (run E.world (analyze_cmd_of args.compiler build_dir) none none true false
        E.hasSudo true [] 3).outcome = .ok u →
      end_problem_matchers args.problem_matcher "analyze" = .ok etrA →
      analyze_phase E args build_dir dJ =
        (group_begin E "Analysis" ++ btrA ++
          (run E.world (analyze_cmd_of args.compiler build_dir) none none true
            false E.hasSudo true [] 3).trace ++ etrA ++ group_end E,
         none)) ∧
    (∀ cfg bJ gJ btJ dJ tr e,
      read_json_file E.fs (joinPath args.build_dir actions_config_name) = .ok cfg →
      pyDictIndex cfg "build" = .ok bJ →
      pyDictIndex bJ "generator" = .ok gJ →
      pyDictIndex bJ "build_type" = .ok btJ →
      pyDictIndex bJ "diagnostics" = .ok dJ →
      analyze_phase E args args.build_dir dJ = (tr, some e) →
      build_step E args = ⟨tr, .error e⟩) ∧
    (∀ cfg bJ gJ btJ dJ pre generator cmd btr er,
      read_json_file E.fs (joinPath args.build_dir actions_config_name) = .ok cfg →
      pyDictIndex cfg "build" = .ok bJ →
      pyDictIndex bJ "generator" = .ok gJ →
      pyDictIndex bJ "build_type" = .ok btJ →
      pyDictIndex bJ "diagnostics" = .ok dJ →
      analyze_phase E args args.build_dir dJ = (pre, none) →
      asStr gJ = .ok generator →
      build_cmd E args.build_dir generator btJ = .ok cmd →
      begin_problem_matchers E.root args.problem_matcher "build" = .ok btr →
      (run E.world cmd none none true false E.hasSudo true [] 3).outcome =
        .error er →
      build_step E args =
        ⟨pre ++ group_begin E "Build" ++ btr ++
          (run E.world cmd none none true false E.hasSudo true [] 3).trace,
         .error (runErrToPy er)⟩) ∧
    (∀ cfg bJ gJ btJ dJ pre generator cmd btr etr u,
      read_json_file E.fs (joinPath args.build_dir actions_config_name) = .ok cfg →
      pyDictIndex cfg "build" = .ok bJ →
      pyDictIndex bJ "generator" = .ok gJ →
      pyDictIndex bJ "build_type" = .ok btJ →
      pyDictIndex bJ "diagnostics" = .ok dJ →
      analyze_phase E args args.build_dir dJ = (pre, none) →
      asStr gJ = .ok generator →
      build_cmd E args.build_dir generator btJ = .ok cmd →
      begin_problem_matchers E.root args.problem_matcher "build" = .ok btr →
      (run E.world cmd none none true false E.hasSudo true [] 3).outcome = .ok u →
      end_problem_matchers args.problem_matcher "build" = .ok etr →
      build_step E args =
        ⟨pre ++ group_begin E "Build" ++ btr ++
          (run E.world cmd none none true false E.hasSudo true [] 3).trace ++
          etr ++ group_end E,
         .ok ()⟩) ∧
    (∀ cfg bJ btJ bdir tests btrR ltr fl e,
      read_json_file E.fs (joinPath args.build_dir actions_config_name) = .ok cfg →
      pyDictIndex cfg "build" = .ok bJ →
      pyDictIndex bJ "build_type" = .ok btJ →
      test_build_dir E args.build_dir btJ = .ok bdir →
      pyDictGet cfg "tests" (Json.arr []) = .ok (.arr tests) →
      tests.isEmpty = false →
      begin_problem_matchers E.root args.problem_matcher "run" = .ok btrR →
      test_loop E cfg bdir tests = (ltr, fl, some e) →
      test_step E args = ⟨btrR ++ ltr, .error e, none, fl⟩) ∧
    (∀ cfg bJ btJ bdir tests btrR etrR ltr fl,
      read_json_file E.fs (joinPath args.build_dir actions_config_name) = .ok cfg →
      pyDictIndex cfg "build" = .ok bJ →
      pyDictIndex bJ "build_type" = .ok btJ →
      test_build_dir E args.build_dir btJ = .ok bdir →
      pyDictGet cfg "tests" (Json.arr []) = .ok (.arr tests) →
      tests.isEmpty = false →
      begin_problem_matchers E.root args.problem_matcher "run" = .ok btrR →
      test_loop E cfg bdir tests = (ltr, fl, none) →
      end_problem_matchers args.problem_matcher "run" = .ok etrR →
      ∃ tail ec, test_step E args =
        ⟨btrR ++ ltr ++ etrR ++ tail, .ok (), ec, fl⟩) := by
  refine ⟨?_, ?_, ?_, ?_, ?_, ?_, ?_⟩
  · intro build_dir dJ btrA er hdiag hbeg her
    simp [analyze_phase, hdiag, hbeg, her, List.append_assoc]
  · intro build_dir dJ btrA etrA u hdiag hbeg hu hendA
    simp [analyze_phase, hdiag, hbeg, hu, hendA, List.append_assoc]
  · intro cfg bJ gJ btJ dJ tr e hread hb hg hbt hd hpre
    simp [build_step, hread, hb, hg, hbt, hd, hpre]
  · intro cfg bJ gJ btJ dJ pre generator cmd btr er hread hb hg hbt hd hpre hgen
      hcmd hbegin her
    simp [build_step, hread, hb, hg, hbt, hd, hpre, hgen, hcmd, hbegin, her,
      List.append_assoc]
  · intro cfg bJ gJ btJ dJ pre generator cmd btr etr u hread hb hg hbt hd hpre
      hgen hcmd hbegin hu hend
    simp [build_step, hread, hb, hg, hbt, hd, hpre, hgen, hcmd, hbegin, hu,
      hend, List.append_assoc]
  · intro cfg bJ btJ bdir tests btrR ltr fl e hread hb hbt hdir htests htne
      hbeginR hloop
    have hfalsyT : jsonFalsy (Json.arr tests) = false := by
      simpa [jsonFalsy] using htne
    simp [test_step, hread, hb, hbt, hdir, htests, hfalsyT, hbeginR, hloop,
      List.append_assoc]
  · intro cfg bJ btJ bdir tests btrR etrR ltr fl hread hb hbt hdir htests htne
      hbeginR hloop hendR
    have hfalsyT : jsonFalsy (Json.arr tests) = false := by
      simpa [jsonFalsy] using htne
    by_cases hfl : fl.isEmpty = true
    · refine ⟨[], none, ?_⟩
      simp [test_step, hread, hb, hbt, hdir, htests, hfalsyT, hbeginR, hloop,
        hendR, hfl, List.append_assoc]
    · refine ⟨[Effect.logLine (toString fl.length ++ " " ++
        pluralize "test" fl.length ++ " out of " ++ toString tests.length ++
        " failed: " ++ joinWith ", " fl)], some 1, ?_⟩
      simp [test_step, hread, hb, hbt, hdir, htests, hfalsyT, hbeginR, hloop,
        hendR, hfl, List.append_assoc]

/-- Record configured with the `analyze-build` diagnostic. -/
def c3cRecord : Json :=
  .obj [("build", .obj [("build_tool", .str "cmake"), ("build_type", .str ""),
          ("build_defs", .str ""), ("config", .null), ("compiler", .str "clang"),
          ("generator", .str "Ninja"), ("diagnostics", .str "analyze-build"),
          ("architecture", .str "x64")])]

/-- Host context whose every spawn fails, with the analyze-build record
on disk. -/
def c3cEnv : Env :=
  { world := fun _ _ => .ran ⟨1, "analysis failed", ""⟩,
    fs := fun p => if p == "build/build-action-config.json" then .valid c3cRecord
      else .missing,
    cwd := "/w", abspath := id, isFile := fun _ => false, isDir := fun _ => false,
    osEnviron := [], hasSudo := false, cpuCount := 1, hostOS := "Linux",
    groups := false, root := "/r" }

/-- Arguments selecting the analyze-build diagnostic and its matcher. -/
def c3cArgs : Args :=
  ⟨none, "clang", "analyze-build", "Ninja", "x64", "", "", "", "build",
   ["analyze-build"]⟩

/-- Witness for `bracket_end_emitted_iff_success`: concrete instances of
the analyze-scope skip (failing analyze run), the build-scope skip
(raising build command), and the run-scope skip (raising test
invocation). -/
theorem bracket_end_emitted_iff_success_witness :
    analyze_phase c3cEnv c3cArgs "build" (.str "analyze-build") =
      (group_begin c3cEnv "Analysis" ++
        [Effect.logLine (addMatcherLine "/r" "analyze-build")] ++
        (run c3cEnv.world (analyze_cmd_of "clang" "build") none none true false
          c3cEnv.hasSudo true [] 3).trace,
       some (runErrToPy (.calledProcess ⟨1, "analysis failed", ""⟩))) ∧
    build_step c3bEnv demoArgs =
      ⟨[] ++ group_begin c3bEnv "Build" ++
        [Effect.logLine (addMatcherLine "/r" "compile")] ++
        (run c3bEnv.world ["cmake", "--build", "build", "--parallel",
          toString c3bEnv.cpuCount] none none true false c3bEnv.hasSudo true
          [] 3).trace,
       .error (runErrToPy .osError)⟩ ∧
    test_step c3bEnv demoArgs =
      ⟨[] ++ [Effect.exec ["build/a"] (some "build") none], .error .osError,
       none, ["a"]⟩ := by
  have h1 := bracket_end_emitted_iff_success c3cEnv c3cArgs
  have h2 := bracket_end_emitted_iff_success c3bEnv demoArgs
  refine ⟨?_, ?_, ?_⟩
  · exact h1.1 "build" (.str "analyze-build")
      [Effect.logLine (addMatcherLine "/r" "analyze-build")]
      (.calledProcess ⟨1, "analysis failed", ""⟩) rfl rfl rfl
  · exact h2.2.2.2.1 c3bRecord
      (.obj [("build_tool", .str "cmake"), ("build_type", .str ""),
        ("build_defs", .str ""), ("config", .null), ("compiler", .str "gcc"),
        ("generator", .str "Ninja"), ("diagnostics", .str ""),
        ("architecture", .str "x64")])
      (.str "Ninja") (.str "") (.str "") [] "Ninja"
      ["cmake", "--build", "build", "--parallel", toString c3bEnv.cpuCount]
      [Effect.logLine (addMatcherLine "/r" "compile")] .osError
      rfl rfl rfl rfl rfl rfl rfl rfl rfl rfl
  · exact h2.2.2.2.2.2.1 c3bRecord
      (.obj [("build_tool", .str "cmake"), ("build_type", .str ""),
        ("build_defs", .str ""), ("config", .null), ("compiler", .str "gcc"),
        ("generator", .str "Ninja"), ("diagnostics", .str ""),
        ("architecture", .str "x64")])
      (.str "") "build" [.obj [("cmd", .arr [.str "a"])]]
      [] [Effect.exec ["build/a"] (some "build") none] ["a"] .osError
      rfl rfl rfl rfl rfl rfl rfl rfl

end BuildActions
